import Mathlib

/-!
Verification of the artifact decoding core of the `artemis` repository.

The development shallowly embeds the volume-information decoder
(`artemis-core/src/artifacts/os/windows/prefetch/volume.rs`) and the BITS
assembly layer (`core/src/artifacts/os/windows/bits/background.rs`).
Byte buffers are `List Nat`, each element one byte; fallible `nom`-style
parsers return `Option`, where `none` is a parse error; fallible
`Result`-returning functions return `Except`.  External collaborators
(filesystem, ESE table engine, row decoders, carving core) are passed as
explicit parameters so the embedded control flow matches the source.
-/

/-- Modelled from the spec: the `nom_unsigned_*_bytes` helpers of
`utils::nom_helper` are not among the provided sources.  Per §4.1 (Byte
Cursor) they read a fixed number of bytes as a little-endian unsigned
integer, failing with an insufficient-data condition when the buffer is
shorter than required, and return the remaining input together with the
value.  `read_le n` reads `n` bytes little-endian. -/
def read_le : Nat → List Nat → Option (List Nat × Nat)
  | 0, input => some (input, 0)
  | n + 1, input =>
    match input with
    | [] => none
    | b :: rest =>
      match read_le n rest with
      | none => none
      | some (r, v) => some (r, (b % 256) + 256 * v)

/-- Little-endian u16 read (`nom_unsigned_two_bytes` with `Endian::Le`). -/
def nom_unsigned_two_bytes (input : List Nat) : Option (List Nat × Nat) :=
  read_le 2 input

/-- Little-endian u32 read (`nom_unsigned_four_bytes` with `Endian::Le`). -/
def nom_unsigned_four_bytes (input : List Nat) : Option (List Nat × Nat) :=
  read_le 4 input

/-- Little-endian u64 read (`nom_unsigned_eight_bytes` with `Endian::Le`). -/
def nom_unsigned_eight_bytes (input : List Nat) : Option (List Nat × Nat) :=
  read_le 8 input

/-- `nom::bytes::complete::take(n)`: consume exactly `n` bytes, returning
`(remaining, taken)`, or fail if fewer than `n` bytes remain. -/
def nom_take : Nat → List Nat → Option (List Nat × List Nat)
  | 0, input => some (input, [])
  | _ + 1, [] => none
  | n + 1, b :: rest =>
    match nom_take n rest with
    | none => none
    | some (r, t) => some (r, b :: t)

/-- Pair up a byte list little-endian into UTF-16 code units; a dangling
odd byte is dropped. -/
def utf16_units : List Nat → List Nat
  | b0 :: b1 :: rest => ((b0 % 256) + 256 * (b1 % 256)) :: utf16_units rest
  | _ => []

/-- Decode one UTF-16 code unit that is not part of a surrogate pair:
unpaired surrogates become U+FFFD (lossy decoding). -/
def utf16_single (u : Nat) : Char :=
  if 0xD800 ≤ u ∧ u < 0xE000 then Char.ofNat 0xFFFD else Char.ofNat (u % 65536)

/-- Lossy UTF-16 decoding of a code-unit list: well-formed surrogate pairs
combine into one scalar value, everything else decodes per unit. -/
def decode_utf16 : List Nat → List Char
  | [] => []
  | [u] => [utf16_single u]
  | u :: v :: rest =>
    if 0xD800 ≤ u ∧ u < 0xDC00 ∧ 0xDC00 ≤ v ∧ v < 0xE000 then
      Char.ofNat (0x10000 + (u - 0xD800) * 0x400 + (v - 0xDC00)) :: decode_utf16 rest
    else
      utf16_single u :: decode_utf16 (v :: rest)

/-- Modelled from the spec: `extract_utf16_string` of `utils::strings` is
not among the provided sources.  Per §4.1 it decodes UTF-16 little-endian
bytes into a string, stripping encoding errors permissively (best-effort
lossy decode) rather than failing. -/
def extract_utf16_string (bytes : List Nat) : String :=
  String.mk (decode_utf16 (utf16_units bytes))

/-- Modelled from the spec: `filetime_to_unixepoch` of `utils::time` is not
among the provided sources.  Per the glossary a FILETIME is a 64-bit count
of 100ns ticks since 1601-01-01, converted to Unix epoch seconds; the
difference between the two epochs is 11644473600 seconds. -/
def filetime_to_unixepoch (filetime : Nat) : Int :=
  (filetime : Int) / 10000000 - 11644473600

/-- One decoded volume-information entry
(`Volume` in `prefetch/volume.rs`). -/
structure Volume where
  _volume_path_offset : Nat
  _volume_number_chars : Nat
  volume_path : String
  volume_creation : Int
  volume_serial : Nat
  _file_ref_offset : Nat
  _file_ref_data_size : Nat
  _directory_strings_offset : Nat
  number_directory_strings : Nat
  directories : List String
deriving DecidableEq

/-- Loop body of `Volume::get_directories`: for each remaining entry read a
little-endian u16 character count, take that many UTF-16 code units
(`size * 2` bytes), then consume one 2-byte UTF-16 null terminator. -/
def Volume.get_directories_loop : Nat → List Nat → Option (List Nat × List String)
  | 0, directory_start => some (directory_start, [])
  | n + 1, directory_start =>
    match nom_unsigned_two_bytes directory_start with
    | none => none
    | some (path_data, size) =>
      match nom_take (size * 2) path_data with
      | none => none
      | some (remaining_data, path) =>
        match nom_take 2 remaining_data with
        | none => none
        | some (remaining_data2, _) =>
          match Volume.get_directories_loop n remaining_data2 with
          | none => none
          | some (rest, dirs) => some (rest, extract_utf16_string path :: dirs)

/-- `Volume::get_directories`: seek to `offset` inside the record-set base
buffer, then decode `entries` directory strings. -/
def Volume.get_directories (data : List Nat) (offset : Nat) (entries : Nat) :
    Option (List Nat × List String) :=
  match nom_take offset data with
  | none => none
  | some (directory_start, _) => Volume.get_directories_loop entries directory_start

/-- One iteration of the `Volume::parse_volume` loop up to the version
check: the 36-byte fixed header (offset/char-count of the path, creation
FILETIME, serial, file-reference offset/size, directory-table
offset/count), then the UTF-16 path and the directory table resolved
against the record-set base `volume_start`.  Returns the input positioned
after the fixed header together with the decoded record. -/
def parse_volume_record (volume_start volume_data : List Nat) :
    Option (List Nat × Volume) :=
  (nom_unsigned_four_bytes volume_data).bind fun (input, volume_path_offset) =>
  (nom_unsigned_four_bytes input).bind fun (input, volume_number_chars) =>
  (nom_unsigned_eight_bytes input).bind fun (input, volume_creation) =>
  (nom_unsigned_four_bytes input).bind fun (input, volume_serial) =>
  (nom_unsigned_four_bytes input).bind fun (input, file_ref_offset) =>
  (nom_unsigned_four_bytes input).bind fun (input, file_ref_data_size) =>
  (nom_unsigned_four_bytes input).bind fun (input, directory_strings_offset) =>
  (nom_unsigned_four_bytes input).bind fun (input, number_directory_strings) =>
  (nom_take volume_path_offset volume_start).bind fun (volume_path_start, _) =>
  (nom_take (volume_number_chars * 2) volume_path_start).bind fun (_, volume_path_data) =>
  (Volume.get_directories volume_start directory_strings_offset
      number_directory_strings).bind fun (_, directories) =>
  some (input,
    { _volume_path_offset := volume_path_offset
      _volume_number_chars := volume_number_chars
      volume_path := extract_utf16_string volume_path_data
      volume_creation := filetime_to_unixepoch volume_creation
      volume_serial := volume_serial
      _file_ref_offset := file_ref_offset
      _file_ref_data_size := file_ref_data_size
      _directory_strings_offset := directory_strings_offset
      number_directory_strings := number_directory_strings
      directories := directories })

/-- The `while` loop of `Volume::parse_volume`, counting down the remaining
records.  After each decoded record the version check either skips the
unknown trailer (60 bytes for version 30, 68 for versions 26 and 23) and
continues, or — for any other version — breaks out of the loop, returning
the records decoded so far (the current record included) with the input
left at the start of the record just decoded. -/
def parse_volume_loop (volume_start : List Nat) (version : Nat) :
    Nat → List Nat → Option (List Nat × List Volume)
  | 0, volume_data => some (volume_data, [])
  | n + 1, volume_data =>
    match parse_volume_record volume_start volume_data with
    | none => none
    | some (input, volume) =>
      if version = 30 then
        match nom_take 60 input with
        | none => none
        | some (input2, _) =>
          match parse_volume_loop volume_start version n input2 with
          | none => none
          | some (rest, vs) => some (rest, volume :: vs)
      else if version = 26 ∨ version = 23 then
        match nom_take 68 input with
        | none => none
        | some (input2, _) =>
          match parse_volume_loop volume_start version n input2 with
          | none => none
          | some (rest, vs) => some (rest, volume :: vs)
      else
        some (volume_data, [volume])

/-- `Volume::parse_volume`: seek to the record-set start, remember it as
the base for all in-record offsets, then run the record loop. -/
def Volume.parse_volume (data : List Nat) (volume_offset : Nat)
    (number_volumes : Nat) (version : Nat) : Option (List Nat × List Volume) :=
  match nom_take volume_offset data with
  | none => none
  | some (volume_data, _) => parse_volume_loop volume_data version number_volumes volume_data

/-- The reference fixture of `tests::test_parse_volume` in
`prefetch/volume.rs`: one version-30 volume record set at offset 0. -/
def volumeFixture : List Nat :=
  [96, 0, 0, 0, 34, 0, 0, 0, 19, 157, 87, 144, 130, 130, 214, 1, 62, 147, 144, 66, 168, 0, 0, 0, 184, 2, 0, 0, 96, 3, 0, 0, 15, 0, 0, 0, 70, 0, 0, 0, 0, 0, 0, 0, 0, 0, 0, 0, 0, 0, 0, 0, 0, 0, 0, 0, 0, 0, 0, 0, 0, 0, 0, 0, 15, 0, 0, 0, 0, 0, 0, 0, 0, 0, 0, 0, 0, 0, 0, 0, 0, 0, 0, 0, 0, 0, 0, 0, 0, 0, 0, 0, 0, 0, 0, 0, 92, 0, 86, 0, 79, 0, 76, 0, 85, 0, 77, 0, 69, 0, 123, 0, 48, 0, 49, 0, 100, 0, 54, 0, 56, 0, 50, 0, 56, 0, 50, 0, 57, 0, 48, 0, 53, 0, 55, 0, 57, 0, 100, 0, 49, 0, 51, 0, 45, 0, 52, 0, 50, 0, 57, 0, 48, 0, 57, 0, 51, 0, 51, 0, 101, 0, 125, 0, 0, 0, 0, 0, 3, 0, 0, 0, 85, 0, 0, 0, 0, 0, 0, 0, 0, 0, 0, 0, 244, 61, 9, 0, 0, 0, 0, 0, 248, 61, 9, 0, 0, 0, 0, 0, 252, 61, 9, 0, 0, 0, 0, 0, 0, 62, 9, 0, 0, 0, 0, 0, 4, 62, 9, 0, 0, 0, 0, 0, 8, 62, 9, 0, 0, 0, 0, 0, 12, 62, 9, 0, 0, 0, 0, 0, 0, 0, 0, 0, 0, 0, 0, 0, 0, 0, 0, 0, 0, 0, 0, 0, 0, 0, 0, 0, 0, 0, 0, 0, 0, 0, 0, 0, 0, 0, 0, 0, 0, 0, 0, 0, 0, 0, 0, 0, 0, 0, 0, 0, 0, 0, 0, 0, 0, 0, 0, 0, 0, 0, 0, 0, 0, 0, 0, 0, 0, 0, 0, 0, 0, 0, 0, 0, 0, 0, 0, 0, 0, 0, 0, 0, 0, 0, 0, 0, 0, 0, 0, 0, 0, 0, 0, 0, 0, 0, 0, 0, 0, 0, 0, 0, 0, 0, 0, 0, 0, 0, 0, 0, 0, 0, 0, 0, 0, 0, 0, 0, 0, 0, 0, 0, 0, 0, 0, 0, 0, 0, 0, 0, 0, 0, 0, 0, 0, 0, 0, 0, 0, 0, 0, 0, 0, 0, 0, 0, 0, 0, 0, 0, 0, 0, 0, 0, 0, 0, 0, 0, 0, 0, 0, 0, 0, 0, 0, 0, 0, 0, 0, 0, 0, 0, 0, 0, 0, 0, 0, 0, 0, 0, 0, 0, 0, 0, 0, 0, 0, 0, 0, 0, 0, 0, 0, 0, 0, 0, 0, 0, 0, 0, 0, 0, 0, 0, 0, 0, 0, 0, 0, 0, 0, 0, 0, 0, 0, 0, 0, 0, 0, 0, 0, 0, 0, 0, 0, 0, 0, 0, 0, 0, 0, 0, 0, 0, 0, 0, 0, 0, 0, 0, 0, 0, 0, 0, 0, 0, 0, 0, 0, 0, 0, 0, 0, 0, 0, 0, 0, 0, 0, 0, 0, 0, 0, 0, 0, 0, 0, 0, 0, 0, 0, 0, 0, 0, 0, 0, 0, 0, 0, 0, 0, 0, 0, 0, 0, 0, 0, 0, 0, 0, 0, 0, 0, 0, 0, 0, 0, 0, 0, 0, 0, 0, 0, 0, 0, 0, 0, 0, 0, 0, 0, 0, 0, 0, 0, 0, 0, 0, 0, 0, 0, 0, 0, 0, 0, 0, 0, 0, 0, 0, 0, 0, 0, 0, 0, 0, 0, 0, 0, 0, 0, 0, 0, 0, 0, 0, 0, 0, 0, 0, 0, 0, 0, 0, 0, 0, 0, 0, 0, 0, 0, 0, 0, 0, 0, 0, 0, 0, 0, 0, 0, 0, 0, 0, 0, 0, 0, 0, 0, 0, 0, 0, 0, 0, 0, 0, 0, 0, 0, 0, 0, 0, 0, 0, 0, 0, 0, 0, 0, 0, 0, 0, 0, 0, 0, 0, 0, 0, 0, 0, 0, 0, 0, 0, 0, 0, 0, 0, 0, 0, 0, 0, 0, 0, 0, 0, 0, 0, 0, 0, 0, 0, 0, 0, 0, 0, 0, 0, 0, 0, 0, 0, 0, 0, 0, 0, 0, 0, 0, 0, 0, 0, 0, 0, 0, 0, 0, 0, 0, 0, 0, 0, 0, 0, 0, 0, 0, 0, 0, 0, 0, 0, 0, 0, 0, 0, 0, 0, 0, 0, 0, 0, 0, 0, 0, 0, 0, 0, 0, 0, 0, 0, 0, 0, 0, 0, 0, 0, 0, 0, 0, 0, 0, 0, 0, 0, 0, 0, 0, 0, 0, 0, 0, 0, 0, 0, 0, 0, 0, 0, 0, 0, 0, 0, 0, 0, 0, 0, 0, 0, 0, 0, 0, 0, 0, 0, 0, 0, 0, 0, 0, 0, 0, 0, 0, 0, 0, 0, 0, 0, 0, 0, 0, 0, 0, 0, 0, 0, 0, 0, 0, 0, 0, 0, 0, 0, 0, 0, 0, 0, 0, 0, 0, 0, 0, 0, 0, 0, 0, 0, 0, 0, 0, 0, 0, 0, 0, 0, 0, 0, 0, 0, 0, 0, 0, 0, 0, 0, 0, 0, 0, 0, 0, 0, 0, 0, 0, 0, 0, 0, 0, 0, 0, 0, 0, 0, 0, 0, 0, 0, 0, 0, 0, 0, 0, 0, 0, 0, 0, 0, 42, 0, 92, 0, 86, 0, 79, 0, 76, 0, 85, 0, 77, 0, 69, 0, 123, 0, 48, 0, 49, 0, 100, 0, 54, 0, 56, 0, 50, 0, 56, 0, 50, 0, 57, 0, 48, 0, 53, 0, 55, 0, 57, 0, 100, 0, 49, 0, 51, 0, 45, 0, 52, 0, 50, 0, 57, 0, 48, 0, 57, 0, 51, 0, 51, 0, 101, 0, 125, 0, 92, 0, 36, 0, 69, 0, 88, 0, 84, 0, 69, 0, 78, 0, 68, 0, 0, 0, 46, 0, 92, 0, 86, 0, 79, 0, 76, 0, 85, 0, 77, 0, 69, 0, 123, 0, 48, 0, 49, 0, 100, 0, 54, 0, 56, 0, 50, 0, 56, 0, 50, 0, 57, 0, 48, 0, 53, 0, 55, 0, 57, 0, 100, 0, 49, 0, 51, 0, 45, 0, 52, 0, 50, 0, 57, 0, 48, 0, 57, 0, 51, 0, 51, 0, 101, 0, 125, 0, 92, 0, 80, 0, 82, 0, 79, 0, 71, 0, 82, 0, 65, 0, 77, 0, 68, 0, 65, 0, 84, 0, 65, 0, 0, 0, 57, 0, 92, 0, 86, 0, 79, 0, 76, 0, 85, 0, 77, 0, 69, 0, 123, 0, 48, 0, 49, 0, 100, 0, 54, 0, 56, 0, 50, 0, 56, 0, 50, 0, 57, 0, 48, 0, 53, 0, 55, 0, 57, 0, 100, 0, 49, 0, 51, 0, 45, 0, 52, 0, 50, 0, 57, 0, 48, 0, 57, 0, 51, 0, 51, 0, 101, 0, 125, 0, 92, 0, 80, 0, 82, 0, 79, 0, 71, 0, 82, 0, 65, 0, 77, 0, 68, 0, 65, 0, 84, 0, 65, 0, 92, 0, 67, 0, 72, 0, 79, 0, 67, 0, 79, 0, 76, 0, 65, 0, 84, 0, 69, 0, 89, 0, 0, 0, 63, 0, 92, 0, 86, 0, 79, 0, 76, 0, 85, 0, 77, 0, 69, 0, 123, 0, 48, 0, 49, 0, 100, 0, 54, 0, 56, 0, 50, 0, 56, 0, 50, 0, 57, 0, 48, 0, 53, 0, 55, 0, 57, 0, 100, 0, 49, 0, 51, 0, 45, 0, 52, 0, 50, 0, 57, 0, 48, 0, 57, 0, 51, 0, 51, 0, 101, 0, 125, 0, 92, 0, 80, 0, 82, 0, 79, 0, 71, 0, 82, 0, 65, 0, 77, 0, 68, 0, 65, 0, 84, 0, 65, 0, 92, 0, 67, 0, 72, 0, 79, 0, 67, 0, 79, 0, 76, 0, 65, 0, 84, 0, 69, 0, 89, 0, 92, 0, 84, 0, 79, 0, 79, 0, 76, 0, 83, 0, 0, 0, 40, 0, 92, 0, 86, 0, 79, 0, 76, 0, 85, 0, 77, 0, 69, 0, 123, 0, 48, 0, 49, 0, 100, 0, 54, 0, 56, 0, 50, 0, 56, 0, 50, 0, 57, 0, 48, 0, 53, 0, 55, 0, 57, 0, 100, 0, 49, 0, 51, 0, 45, 0, 52, 0, 50, 0, 57, 0, 48, 0, 57, 0, 51, 0, 51, 0, 101, 0, 125, 0, 92, 0, 85, 0, 83, 0, 69, 0, 82, 0, 83, 0, 0, 0, 44, 0, 92, 0, 86, 0, 79, 0, 76, 0, 85, 0, 77, 0, 69, 0, 123, 0, 48, 0, 49, 0, 100, 0, 54, 0, 56, 0, 50, 0, 56, 0, 50, 0, 57, 0, 48, 0, 53, 0, 55, 0, 57, 0, 100, 0, 49, 0, 51, 0, 45, 0, 52, 0, 50, 0, 57, 0, 48, 0, 57, 0, 51, 0, 51, 0, 101, 0, 125, 0, 92, 0, 85, 0, 83, 0, 69, 0, 82, 0, 83, 0, 92, 0, 66, 0, 79, 0, 66, 0, 0, 0, 52, 0, 92, 0, 86, 0, 79, 0, 76, 0, 85, 0, 77, 0, 69, 0, 123, 0, 48, 0, 49, 0, 100, 0, 54, 0, 56, 0, 50, 0, 56, 0, 50, 0, 57, 0, 48, 0, 53, 0, 55, 0, 57, 0, 100, 0, 49, 0, 51, 0, 45, 0, 52, 0, 50, 0, 57, 0, 48, 0, 57, 0, 51, 0, 51, 0, 101, 0, 125, 0, 92, 0, 85, 0, 83, 0, 69, 0, 82, 0, 83, 0, 92, 0, 66, 0, 79, 0, 66, 0, 92, 0, 65, 0, 80, 0, 80, 0, 68, 0, 65, 0, 84, 0, 65, 0, 0, 0, 58, 0, 92, 0, 86, 0, 79, 0, 76, 0, 85, 0, 77, 0, 69, 0, 123, 0, 48, 0, 49, 0, 100, 0, 54, 0, 56, 0, 50, 0, 56, 0, 50, 0, 57, 0, 48, 0, 53, 0, 55, 0, 57, 0, 100, 0, 49, 0, 51, 0, 45, 0, 52, 0, 50, 0, 57, 0, 48, 0, 57, 0, 51, 0, 51, 0, 101, 0, 125, 0, 92, 0, 85, 0, 83, 0, 69, 0, 82, 0, 83, 0, 92, 0, 66, 0, 79, 0, 66, 0, 92, 0, 65, 0, 80, 0, 80, 0, 68, 0, 65, 0, 84, 0, 65, 0, 92, 0, 76, 0, 79, 0, 67, 0, 65, 0, 76, 0, 0, 0, 63, 0, 92, 0, 86, 0, 79, 0, 76, 0, 85, 0, 77, 0, 69, 0, 123, 0, 48, 0, 49, 0, 100, 0, 54, 0, 56, 0, 50, 0, 56, 0, 50, 0, 57, 0, 48, 0, 53, 0, 55, 0, 57, 0, 100, 0, 49, 0, 51, 0, 45, 0, 52, 0, 50, 0, 57, 0, 48, 0, 57, 0, 51, 0, 51, 0, 101, 0, 125, 0, 92, 0, 85, 0, 83, 0, 69, 0, 82, 0, 83, 0, 92, 0, 66, 0, 79, 0, 66, 0, 92, 0, 65, 0, 80, 0, 80, 0, 68, 0, 65, 0, 84, 0, 65, 0, 92, 0, 76, 0, 79, 0, 67, 0, 65, 0, 76, 0, 92, 0, 84, 0, 69, 0, 77, 0, 80, 0, 0, 0, 74, 0, 92, 0, 86, 0, 79, 0, 76, 0, 85, 0, 77, 0, 69, 0, 123, 0, 48, 0, 49, 0, 100, 0, 54, 0, 56, 0, 50, 0, 56, 0, 50, 0, 57, 0, 48, 0, 53, 0, 55, 0, 57, 0, 100, 0, 49, 0, 51, 0, 45, 0, 52, 0, 50, 0, 57, 0, 48, 0, 57, 0, 51, 0, 51, 0, 101, 0, 125, 0, 92, 0, 85, 0, 83, 0, 69, 0, 82, 0, 83, 0, 92, 0, 66, 0, 79, 0, 66, 0, 92, 0, 65, 0, 80, 0, 80, 0, 68, 0, 65, 0, 84, 0, 65, 0, 92, 0, 76, 0, 79, 0, 67, 0, 65, 0, 76, 0, 92, 0, 84, 0, 69, 0, 77, 0, 80, 0, 92, 0, 67, 0, 72, 0, 79, 0, 67, 0, 79, 0, 76, 0, 65, 0, 84, 0, 69, 0, 89, 0, 0, 0, 86, 0, 92, 0, 86, 0, 79, 0, 76, 0, 85, 0, 77, 0, 69, 0, 123, 0, 48, 0, 49, 0, 100, 0, 54, 0, 56, 0, 50, 0, 56, 0, 50, 0, 57, 0, 48, 0, 53, 0, 55, 0, 57, 0, 100, 0, 49, 0, 51, 0, 45, 0, 52, 0, 50, 0, 57, 0, 48, 0, 57, 0, 51, 0, 51, 0, 101, 0, 125, 0, 92, 0, 85, 0, 83, 0, 69, 0, 82, 0, 83, 0, 92, 0, 66, 0, 79, 0, 66, 0, 92, 0, 65, 0, 80, 0, 80, 0, 68, 0, 65, 0, 84, 0, 65, 0, 92, 0, 76, 0, 79, 0, 67, 0, 65, 0, 76, 0, 92, 0, 84, 0, 69, 0, 77, 0, 80, 0, 92, 0, 67, 0, 72, 0, 79, 0, 67, 0, 79, 0, 76, 0, 65, 0, 84, 0, 69, 0, 89, 0, 92, 0, 80, 0, 83, 0, 69, 0, 88, 0, 69, 0, 67, 0, 46, 0, 50, 0, 46, 0, 52, 0, 48, 0, 0, 0, 42, 0, 92, 0, 86, 0, 79, 0, 76, 0, 85, 0, 77, 0, 69, 0, 123, 0, 48, 0, 49, 0, 100, 0, 54, 0, 56, 0, 50, 0, 56, 0, 50, 0, 57, 0, 48, 0, 53, 0, 55, 0, 57, 0, 100, 0, 49, 0, 51, 0, 45, 0, 52, 0, 50, 0, 57, 0, 48, 0, 57, 0, 51, 0, 51, 0, 101, 0, 125, 0, 92, 0, 87, 0, 73, 0, 78, 0, 68, 0, 79, 0, 87, 0, 83, 0, 0, 0, 51, 0, 92, 0, 86, 0, 79, 0, 76, 0, 85, 0, 77, 0, 69, 0, 123, 0, 48, 0, 49, 0, 100, 0, 54, 0, 56, 0, 50, 0, 56, 0, 50, 0, 57, 0, 48, 0, 53, 0, 55, 0, 57, 0, 100, 0, 49, 0, 51, 0, 45, 0, 52, 0, 50, 0, 57, 0, 48, 0, 57, 0, 51, 0, 51, 0, 101, 0, 125, 0, 92, 0, 87, 0, 73, 0, 78, 0, 68, 0, 79, 0, 87, 0, 83, 0, 92, 0, 65, 0, 80, 0, 80, 0, 80, 0, 65, 0, 84, 0, 67, 0, 72, 0, 0, 0, 51, 0, 92, 0, 86, 0, 79, 0, 76, 0, 85, 0, 77, 0, 69, 0, 123, 0, 48, 0, 49, 0, 100, 0, 54, 0, 56, 0, 50, 0, 56, 0, 50, 0, 57, 0, 48, 0, 53, 0, 55, 0, 57, 0, 100, 0, 49, 0, 51, 0, 45, 0, 52, 0, 50, 0, 57, 0, 48, 0, 57, 0, 51, 0, 51, 0, 101, 0, 125, 0, 92, 0, 87, 0, 73, 0, 78, 0, 68, 0, 79, 0, 87, 0, 83, 0, 92, 0, 83, 0, 89, 0, 83, 0, 84, 0, 69, 0, 77, 0, 51, 0, 50, 0, 0, 0, 51, 0, 92, 0, 86, 0, 79, 0, 76, 0, 85, 0, 77, 0, 69, 0, 123, 0, 48, 0, 49, 0, 100, 0, 54, 0, 56, 0, 50, 0, 56, 0, 50, 0, 57, 0, 48, 0, 53, 0, 55, 0, 57, 0, 100, 0, 49, 0, 51, 0, 45, 0, 52, 0, 50, 0, 57, 0, 48, 0, 57, 0, 51, 0, 51, 0, 101, 0, 125, 0, 92, 0, 87, 0, 73, 0, 78, 0, 68, 0, 79, 0, 87, 0, 83, 0, 92, 0, 83, 0, 89, 0, 83, 0, 87, 0, 79, 0, 87, 0, 54, 0, 52, 0, 0, 0, 0, 0, 0, 0, 0, 0, 0, 0]

/-- The reference fixture of `tests::test_get_directories` in
`prefetch/volume.rs`: a 15-entry directory-string table. -/
def directoryFixture : List Nat :=
  [42, 0, 92, 0, 86, 0, 79, 0, 76, 0, 85, 0, 77, 0, 69, 0, 123, 0, 48, 0, 49, 0, 100, 0, 54, 0, 56, 0, 50, 0, 56, 0, 50, 0, 57, 0, 48, 0, 53, 0, 55, 0, 57, 0, 100, 0, 49, 0, 51, 0, 45, 0, 52, 0, 50, 0, 57, 0, 48, 0, 57, 0, 51, 0, 51, 0, 101, 0, 125, 0, 92, 0, 36, 0, 69, 0, 88, 0, 84, 0, 69, 0, 78, 0, 68, 0, 0, 0, 46, 0, 92, 0, 86, 0, 79, 0, 76, 0, 85, 0, 77, 0, 69, 0, 123, 0, 48, 0, 49, 0, 100, 0, 54, 0, 56, 0, 50, 0, 56, 0, 50, 0, 57, 0, 48, 0, 53, 0, 55, 0, 57, 0, 100, 0, 49, 0, 51, 0, 45, 0, 52, 0, 50, 0, 57, 0, 48, 0, 57, 0, 51, 0, 51, 0, 101, 0, 125, 0, 92, 0, 80, 0, 82, 0, 79, 0, 71, 0, 82, 0, 65, 0, 77, 0, 68, 0, 65, 0, 84, 0, 65, 0, 0, 0, 57, 0, 92, 0, 86, 0, 79, 0, 76, 0, 85, 0, 77, 0, 69, 0, 123, 0, 48, 0, 49, 0, 100, 0, 54, 0, 56, 0, 50, 0, 56, 0, 50, 0, 57, 0, 48, 0, 53, 0, 55, 0, 57, 0, 100, 0, 49, 0, 51, 0, 45, 0, 52, 0, 50, 0, 57, 0, 48, 0, 57, 0, 51, 0, 51, 0, 101, 0, 125, 0, 92, 0, 80, 0, 82, 0, 79, 0, 71, 0, 82, 0, 65, 0, 77, 0, 68, 0, 65, 0, 84, 0, 65, 0, 92, 0, 67, 0, 72, 0, 79, 0, 67, 0, 79, 0, 76, 0, 65, 0, 84, 0, 69, 0, 89, 0, 0, 0, 63, 0, 92, 0, 86, 0, 79, 0, 76, 0, 85, 0, 77, 0, 69, 0, 123, 0, 48, 0, 49, 0, 100, 0, 54, 0, 56, 0, 50, 0, 56, 0, 50, 0, 57, 0, 48, 0, 53, 0, 55, 0, 57, 0, 100, 0, 49, 0, 51, 0, 45, 0, 52, 0, 50, 0, 57, 0, 48, 0, 57, 0, 51, 0, 51, 0, 101, 0, 125, 0, 92, 0, 80, 0, 82, 0, 79, 0, 71, 0, 82, 0, 65, 0, 77, 0, 68, 0, 65, 0, 84, 0, 65, 0, 92, 0, 67, 0, 72, 0, 79, 0, 67, 0, 79, 0, 76, 0, 65, 0, 84, 0, 69, 0, 89, 0, 92, 0, 84, 0, 79, 0, 79, 0, 76, 0, 83, 0, 0, 0, 40, 0, 92, 0, 86, 0, 79, 0, 76, 0, 85, 0, 77, 0, 69, 0, 123, 0, 48, 0, 49, 0, 100, 0, 54, 0, 56, 0, 50, 0, 56, 0, 50, 0, 57, 0, 48, 0, 53, 0, 55, 0, 57, 0, 100, 0, 49, 0, 51, 0, 45, 0, 52, 0, 50, 0, 57, 0, 48, 0, 57, 0, 51, 0, 51, 0, 101, 0, 125, 0, 92, 0, 85, 0, 83, 0, 69, 0, 82, 0, 83, 0, 0, 0, 44, 0, 92, 0, 86, 0, 79, 0, 76, 0, 85, 0, 77, 0, 69, 0, 123, 0, 48, 0, 49, 0, 100, 0, 54, 0, 56, 0, 50, 0, 56, 0, 50, 0, 57, 0, 48, 0, 53, 0, 55, 0, 57, 0, 100, 0, 49, 0, 51, 0, 45, 0, 52, 0, 50, 0, 57, 0, 48, 0, 57, 0, 51, 0, 51, 0, 101, 0, 125, 0, 92, 0, 85, 0, 83, 0, 69, 0, 82, 0, 83, 0, 92, 0, 66, 0, 79, 0, 66, 0, 0, 0, 52, 0, 92, 0, 86, 0, 79, 0, 76, 0, 85, 0, 77, 0, 69, 0, 123, 0, 48, 0, 49, 0, 100, 0, 54, 0, 56, 0, 50, 0, 56, 0, 50, 0, 57, 0, 48, 0, 53, 0, 55, 0, 57, 0, 100, 0, 49, 0, 51, 0, 45, 0, 52, 0, 50, 0, 57, 0, 48, 0, 57, 0, 51, 0, 51, 0, 101, 0, 125, 0, 92, 0, 85, 0, 83, 0, 69, 0, 82, 0, 83, 0, 92, 0, 66, 0, 79, 0, 66, 0, 92, 0, 65, 0, 80, 0, 80, 0, 68, 0, 65, 0, 84, 0, 65, 0, 0, 0, 58, 0, 92, 0, 86, 0, 79, 0, 76, 0, 85, 0, 77, 0, 69, 0, 123, 0, 48, 0, 49, 0, 100, 0, 54, 0, 56, 0, 50, 0, 56, 0, 50, 0, 57, 0, 48, 0, 53, 0, 55, 0, 57, 0, 100, 0, 49, 0, 51, 0, 45, 0, 52, 0, 50, 0, 57, 0, 48, 0, 57, 0, 51, 0, 51, 0, 101, 0, 125, 0, 92, 0, 85, 0, 83, 0, 69, 0, 82, 0, 83, 0, 92, 0, 66, 0, 79, 0, 66, 0, 92, 0, 65, 0, 80, 0, 80, 0, 68, 0, 65, 0, 84, 0, 65, 0, 92, 0, 76, 0, 79, 0, 67, 0, 65, 0, 76, 0, 0, 0, 63, 0, 92, 0, 86, 0, 79, 0, 76, 0, 85, 0, 77, 0, 69, 0, 123, 0, 48, 0, 49, 0, 100, 0, 54, 0, 56, 0, 50, 0, 56, 0, 50, 0, 57, 0, 48, 0, 53, 0, 55, 0, 57, 0, 100, 0, 49, 0, 51, 0, 45, 0, 52, 0, 50, 0, 57, 0, 48, 0, 57, 0, 51, 0, 51, 0, 101, 0, 125, 0, 92, 0, 85, 0, 83, 0, 69, 0, 82, 0, 83, 0, 92, 0, 66, 0, 79, 0, 66, 0, 92, 0, 65, 0, 80, 0, 80, 0, 68, 0, 65, 0, 84, 0, 65, 0, 92, 0, 76, 0, 79, 0, 67, 0, 65, 0, 76, 0, 92, 0, 84, 0, 69, 0, 77, 0, 80, 0, 0, 0, 74, 0, 92, 0, 86, 0, 79, 0, 76, 0, 85, 0, 77, 0, 69, 0, 123, 0, 48, 0, 49, 0, 100, 0, 54, 0, 56, 0, 50, 0, 56, 0, 50, 0, 57, 0, 48, 0, 53, 0, 55, 0, 57, 0, 100, 0, 49, 0, 51, 0, 45, 0, 52, 0, 50, 0, 57, 0, 48, 0, 57, 0, 51, 0, 51, 0, 101, 0, 125, 0, 92, 0, 85, 0, 83, 0, 69, 0, 82, 0, 83, 0, 92, 0, 66, 0, 79, 0, 66, 0, 92, 0, 65, 0, 80, 0, 80, 0, 68, 0, 65, 0, 84, 0, 65, 0, 92, 0, 76, 0, 79, 0, 67, 0, 65, 0, 76, 0, 92, 0, 84, 0, 69, 0, 77, 0, 80, 0, 92, 0, 67, 0, 72, 0, 79, 0, 67, 0, 79, 0, 76, 0, 65, 0, 84, 0, 69, 0, 89, 0, 0, 0, 86, 0, 92, 0, 86, 0, 79, 0, 76, 0, 85, 0, 77, 0, 69, 0, 123, 0, 48, 0, 49, 0, 100, 0, 54, 0, 56, 0, 50, 0, 56, 0, 50, 0, 57, 0, 48, 0, 53, 0, 55, 0, 57, 0, 100, 0, 49, 0, 51, 0, 45, 0, 52, 0, 50, 0, 57, 0, 48, 0, 57, 0, 51, 0, 51, 0, 101, 0, 125, 0, 92, 0, 85, 0, 83, 0, 69, 0, 82, 0, 83, 0, 92, 0, 66, 0, 79, 0, 66, 0, 92, 0, 65, 0, 80, 0, 80, 0, 68, 0, 65, 0, 84, 0, 65, 0, 92, 0, 76, 0, 79, 0, 67, 0, 65, 0, 76, 0, 92, 0, 84, 0, 69, 0, 77, 0, 80, 0, 92, 0, 67, 0, 72, 0, 79, 0, 67, 0, 79, 0, 76, 0, 65, 0, 84, 0, 69, 0, 89, 0, 92, 0, 80, 0, 83, 0, 69, 0, 88, 0, 69, 0, 67, 0, 46, 0, 50, 0, 46, 0, 52, 0, 48, 0, 0, 0, 42, 0, 92, 0, 86, 0, 79, 0, 76, 0, 85, 0, 77, 0, 69, 0, 123, 0, 48, 0, 49, 0, 100, 0, 54, 0, 56, 0, 50, 0, 56, 0, 50, 0, 57, 0, 48, 0, 53, 0, 55, 0, 57, 0, 100, 0, 49, 0, 51, 0, 45, 0, 52, 0, 50, 0, 57, 0, 48, 0, 57, 0, 51, 0, 51, 0, 101, 0, 125, 0, 92, 0, 87, 0, 73, 0, 78, 0, 68, 0, 79, 0, 87, 0, 83, 0, 0, 0, 51, 0, 92, 0, 86, 0, 79, 0, 76, 0, 85, 0, 77, 0, 69, 0, 123, 0, 48, 0, 49, 0, 100, 0, 54, 0, 56, 0, 50, 0, 56, 0, 50, 0, 57, 0, 48, 0, 53, 0, 55, 0, 57, 0, 100, 0, 49, 0, 51, 0, 45, 0, 52, 0, 50, 0, 57, 0, 48, 0, 57, 0, 51, 0, 51, 0, 101, 0, 125, 0, 92, 0, 87, 0, 73, 0, 78, 0, 68, 0, 79, 0, 87, 0, 83, 0, 92, 0, 65, 0, 80, 0, 80, 0, 80, 0, 65, 0, 84, 0, 67, 0, 72, 0, 0, 0, 51, 0, 92, 0, 86, 0, 79, 0, 76, 0, 85, 0, 77, 0, 69, 0, 123, 0, 48, 0, 49, 0, 100, 0, 54, 0, 56, 0, 50, 0, 56, 0, 50, 0, 57, 0, 48, 0, 53, 0, 55, 0, 57, 0, 100, 0, 49, 0, 51, 0, 45, 0, 52, 0, 50, 0, 57, 0, 48, 0, 57, 0, 51, 0, 51, 0, 101, 0, 125, 0, 92, 0, 87, 0, 73, 0, 78, 0, 68, 0, 79, 0, 87, 0, 83, 0, 92, 0, 83, 0, 89, 0, 83, 0, 84, 0, 69, 0, 77, 0, 51, 0, 50, 0, 0, 0, 51, 0, 92, 0, 86, 0, 79, 0, 76, 0, 85, 0, 77, 0, 69, 0, 123, 0, 48, 0, 49, 0, 100, 0, 54, 0, 56, 0, 50, 0, 56, 0, 50, 0, 57, 0, 48, 0, 53, 0, 55, 0, 57, 0, 100, 0, 49, 0, 51, 0, 45, 0, 52, 0, 50, 0, 57, 0, 48, 0, 57, 0, 51, 0, 51, 0, 101, 0, 125, 0, 92, 0, 87, 0, 73, 0, 78, 0, 68, 0, 79, 0, 87, 0, 83, 0, 92, 0, 83, 0, 89, 0, 83, 0, 87, 0, 79, 0, 87, 0, 54, 0, 52, 0, 0, 0, 0, 0, 0, 0, 0, 0, 0, 0]

/-- Modelled from the spec: the decoded job record (`JobInfo` of
`common::windows`, produced by `jobs.rs`, neither among the provided
sources).  Fields follow §3 (JobRecord) and the field accesses in
`background.rs`. -/
structure JobInfo where
  job_id : String
  file_id : String
  owner_sid : String
  created : Int
  modified : Int
  completed : Int
  expiration : Int
  job_name : String
  job_description : String
  job_command : String
  job_arguements : String
  error_count : Nat
  job_type : String
  job_state : String
  priority : String
  flags : String
  http_method : String
  target_path : String
  timeout : Nat
  retry_delay : Nat
  transient_error_count : Nat
  acls : List String
  additional_sids : List String
deriving DecidableEq

/-- Modelled from the spec: the decoded file record (`FileInfo` of
`common::windows`, produced by `files.rs`, neither among the provided
sources).  Fields follow §3 (FileRecord) and the field accesses in
`background.rs` (source spellings kept). -/
structure FileInfo where
  file_id : String
  files_transferred : Nat
  download_bytes_size : Nat
  trasfer_bytes_size : Nat
  full_path : String
  filename : String
  tmp_fullpath : String
  volume : String
  url : String
deriving DecidableEq

/-- The merged caller-facing BITS record (`BitsInfo` of `common::windows`),
with the fields assigned in the join loop of `parse_ese_bits`. -/
structure BitsInfo where
  job_id : String
  file_id : String
  owner_sid : String
  username : String
  created : Int
  modified : Int
  completed : Int
  expiration : Int
  files_total : Nat
  bytes_downloaded : Nat
  bytes_tranferred : Nat
  job_name : String
  job_description : String
  job_command : String
  job_arguements : String
  error_count : Nat
  job_type : String
  job_state : String
  priority : String
  flags : String
  http_method : String
  full_path : String
  filename : String
  target_path : String
  tmp_file : String
  volume : String
  url : String
  timeout : Nat
  retry_delay : Nat
  transient_error_count : Nat
  acls : List String
  additional_sids : List String
  carved : Bool
deriving DecidableEq

/-- `WinBits` (`carve.rs`): carved merged records, carved jobs, carved
files, as returned by the carving core. -/
def WinBits : Type :=
  List BitsInfo × List JobInfo × List FileInfo

/-- `WindowsBits` (`common::windows`): the top-level result of a BITS
decode: merged entries plus separately surfaced carved jobs and files. -/
structure WindowsBits where
  bits : List BitsInfo
  carved_jobs : List JobInfo
  carved_files : List FileInfo
deriving DecidableEq

/-- `BitsError` (`bits/error.rs`, not among the provided sources; variants
taken from their uses in `background.rs`). -/
inductive BitsError where
  | ParseEse
  | MissingJobs
  | MissingFiles
  | ReadFile
deriving DecidableEq

/-- The `BitsInfo` value built in the join loop of `parse_ese_bits` for a
matching job/file pair; `users` is the SID-to-username map, a missing SID
defaulting to the empty string. -/
def make_bits_info (users : List (String × String)) (job : JobInfo) (file : FileInfo) :
    BitsInfo :=
  { job_id := job.job_id
    file_id := job.file_id
    owner_sid := job.owner_sid
    username := (users.lookup job.owner_sid).getD ""
    created := job.created
    modified := job.modified
    completed := job.completed
    expiration := job.expiration
    files_total := file.files_transferred
    bytes_downloaded := file.download_bytes_size
    bytes_tranferred := file.trasfer_bytes_size
    job_name := job.job_name
    job_description := job.job_description
    job_command := job.job_command
    job_arguements := job.job_arguements
    error_count := job.error_count
    job_type := job.job_type
    job_state := job.job_state
    priority := job.priority
    flags := job.flags
    http_method := job.http_method
    full_path := file.full_path
    filename := file.filename
    target_path := job.target_path
    tmp_file := file.tmp_fullpath
    volume := file.volume
    url := file.url
    timeout := job.timeout
    retry_delay := job.retry_delay
    transient_error_count := job.transient_error_count
    acls := job.acls
    additional_sids := job.additional_sids
    carved := false }

/-- Inner loop of the `parse_ese_bits` join: for one job, walk the file
list and emit a merged record for every file sharing its `file_id`. -/
def ese_join_files (users : List (String × String)) (job : JobInfo) :
    List FileInfo → List BitsInfo
  | [] => []
  | file :: fs =>
    if job.file_id = file.file_id then
      make_bits_info users job file :: ese_join_files users job fs
    else
      ese_join_files users job fs

/-- Outer loop of the `parse_ese_bits` join: nested iteration over all
jobs and files, pushing one merged record per matching pair. -/
def ese_join (users : List (String × String)) :
    List JobInfo → List FileInfo → List BitsInfo
  | [], _ => []
  | job :: js, files => ese_join_files users job files ++ ese_join users js files

/-- `parse_carve` (`background.rs`): run the carving core `carve_bits`
(passed as the parameter `cb`; `carve.rs` is not among the provided
sources) and, on any carving failure, report empty recovery lists instead
of an error. -/
def parse_carve (cb : List Nat → Bool → Option (List Nat × WinBits))
    (data : List Nat) (is_legacy : Bool) : WinBits :=
  match cb data is_legacy with
  | some (_, bits) => bits
  | none => ([], [], [])

/-- `parse_ese_bits` (`background.rs`).  External collaborators are passed
as parameters: `grab` is the outcome of `grab_ese_tables` on the BITS
database path (a table-name-to-rows mapping over an abstract row type ρ),
`get_jobs`/`get_files` decode the rows of one table, `users` resolves
SIDs, `raw_read` is the outcome of `raw_read_file` on the path, and `cb`
is the carving core.  Control flow mirrors the source: missing `Jobs`
table fails with `MissingJobs` before any row decoding, missing `Files`
fails with `MissingFiles`, the join builds the merged entries, and when
`carve` is requested a raw-read failure only skips carving. -/
def parse_ese_bits {ρ : Type}
    (grab : Except Unit (List (String × List ρ)))
    (get_jobs : List ρ → Except BitsError (List JobInfo))
    (get_files : List ρ → Except BitsError (List FileInfo))
    (users : List (String × String))
    (raw_read : Except Unit (List Nat))
    (cb : List Nat → Bool → Option (List Nat × WinBits))
    (carve : Bool) : Except BitsError WindowsBits :=
  match grab with
  | .error _ => .error .ParseEse
  | .ok bits_tables =>
    match bits_tables.lookup "Jobs" with
    | none => .error .MissingJobs
    | some jobs =>
      match get_jobs jobs with
      | .error e => .error e
      | .ok jobs_info =>
        match bits_tables.lookup "Files" with
        | none => .error .MissingFiles
        | some files =>
          match get_files files with
          | .error e => .error e
          | .ok files_info =>
            let bits_info := ese_join users jobs_info files_info
            let windows_bits : WindowsBits := ⟨bits_info, [], []⟩
            if carve then
              match raw_read with
              | .ok data =>
                let carved := parse_carve cb data false
                .ok { windows_bits with
                        carved_jobs := windows_bits.carved_jobs ++ carved.2.1
                        carved_files := windows_bits.carved_files ++ carved.2.2 }
              | .error _ => .ok windows_bits
            else .ok windows_bits

/-- `legacy_bits` (`background.rs`): raw-read the file at `path` (failure
is the fatal `ReadFile` error), decode its legacy job records via
`get_legacy_jobs` (a collaborator from `jobs.rs`, not among the provided
sources), and when `carve` is requested append the carved output — the
carving core is invoked with `is_legacy = false`, and carved merged
records are appended to the main entry list. -/
def legacy_bits
    (raw_read : String → Except Unit (List Nat))
    (get_legacy_jobs : List Nat → Except BitsError (List BitsInfo))
    (cb : List Nat → Bool → Option (List Nat × WinBits))
    (path : String) (carve : Bool) : Except BitsError WindowsBits :=
  match raw_read path with
  | .error _ => .error .ReadFile
  | .ok bits_data =>
    match get_legacy_jobs bits_data with
    | .error e => .error e
    | .ok bits =>
      if carve then
        let carved := parse_carve cb bits_data false
        .ok ⟨bits ++ carved.1, carved.2.1, carved.2.2⟩
      else
        .ok ⟨bits, [], []⟩

/-- The fixed `qmgr0.dat` location of the legacy generation. -/
def qmgr0_path (systemdrive : Char) : String :=
  String.singleton systemdrive ++ ":\\ProgramData\\Microsoft\\Network\\Downloader\\qmgr0.dat"

/-- The fixed `qmgr1.dat` location of the legacy generation. -/
def qmgr1_path (systemdrive : Char) : String :=
  String.singleton systemdrive ++ ":\\ProgramData\\Microsoft\\Network\\Downloader\\qmgr1.dat"

/-- Concatenation of two `WindowsBits` results, as the repeated
`append` calls in `parse_legacy_bits` produce. -/
def append_windows_bits (a b : WindowsBits) : WindowsBits :=
  ⟨a.bits ++ b.bits, a.carved_jobs ++ b.carved_jobs, a.carved_files ++ b.carved_files⟩

/-- `parse_legacy_bits` (`background.rs`): for each of the two fixed
`qmgr` locations, skip it when `is_file` is false, otherwise decode it
with `legacy_bits`, propagating any error of `legacy_bits` (the `?`
operator) and appending its results. -/
def parse_legacy_bits
    (is_file : String → Bool)
    (raw_read : String → Except Unit (List Nat))
    (get_legacy_jobs : List Nat → Except BitsError (List BitsInfo))
    (cb : List Nat → Bool → Option (List Nat × WinBits))
    (systemdrive : Char) (carve : Bool) : Except BitsError WindowsBits :=
  let windows_bits : WindowsBits := ⟨[], [], []⟩
  match
    (if is_file (qmgr0_path systemdrive) then
      (legacy_bits raw_read get_legacy_jobs cb (qmgr0_path systemdrive) carve).map
        (fun results => append_windows_bits windows_bits results)
    else .ok windows_bits) with
  | .error e => .error e
  | .ok acc =>
    if is_file (qmgr1_path systemdrive) then
      (legacy_bits raw_read get_legacy_jobs cb (qmgr1_path systemdrive) carve).map
        (fun results => append_windows_bits acc results)
    else .ok acc

/-- The volume record obtained by decoding 36 zero header bytes against an
all-zero base buffer (used to instantiate the structural theorems). -/
def zeroVolume : Volume :=
  { _volume_path_offset := 0
    _volume_number_chars := 0
    volume_path := ""
    volume_creation := -11644473600
    volume_serial := 0
    _file_ref_offset := 0
    _file_ref_data_size := 0
    _directory_strings_offset := 0
    number_directory_strings := 0
    directories := [] }

/-- A sample job record with `file_id` "a" (used to instantiate the join
theorems). -/
def sampleJob : JobInfo :=
  ⟨"j1", "a", "sid", 0, 0, 0, 0, "", "", "", "", 0, "", "", "", "", "", "", 0, 0, 0, [], []⟩

/-- A sample file record with `file_id` "a", matching `sampleJob`. -/
def sampleFileA : FileInfo :=
  ⟨"a", 0, 0, 0, "", "", "", "", ""⟩

/-- A sample file record with `file_id` "b", matching no job. -/
def sampleFileB : FileInfo :=
  ⟨"b", 0, 0, 0, "", "", "", "", ""⟩

theorem read_le_drop :
    ∀ (n : Nat) (i r : List Nat) (v : Nat), read_le n i = some (r, v) → r = i.drop n := by
  intro n
  induction n with
  | zero =>
    intro i r v h
    simp only [read_le, Option.some.injEq, Prod.mk.injEq] at h
    simp [← h.1]
  | succ n ih =>
    intro i r v h
    cases i with
    | nil => simp [read_le] at h
    | cons b rest =>
      simp only [read_le] at h
      cases h' : read_le n rest with
      | none => rw [h'] at h; simp at h
      | some p =>
        obtain ⟨r', v'⟩ := p
        rw [h'] at h
        simp only [Option.some.injEq, Prod.mk.injEq] at h
        rw [List.drop_succ_cons, ← h.1]
        exact ih rest r' v' h'

theorem nom_take_drop :
    ∀ (n : Nat) (i r t : List Nat), nom_take n i = some (r, t) → r = i.drop n := by
  intro n
  induction n with
  | zero =>
    intro i r t h
    simp only [nom_take, Option.some.injEq, Prod.mk.injEq] at h
    simp [← h.1]
  | succ n ih =>
    intro i r t h
    cases i with
    | nil => simp [nom_take] at h
    | cons b rest =>
      simp only [nom_take] at h
      cases h' : nom_take n rest with
      | none => rw [h'] at h; simp at h
      | some p =>
        obtain ⟨r', t'⟩ := p
        rw [h'] at h
        simp only [Option.some.injEq, Prod.mk.injEq] at h
        rw [List.drop_succ_cons, ← h.1]
        exact ih rest r' t' h'

theorem parse_volume_record_drop (vs vd i : List Nat) (v : Volume)
    (h : parse_volume_record vs vd = some (i, v)) : i = List.drop 36 vd := by
  unfold parse_volume_record at h
  simp only [Option.bind_eq_some] at h
  obtain ⟨⟨i1, a1⟩, h1, h⟩ := h
  obtain ⟨⟨i2, a2⟩, h2, h⟩ := h
  obtain ⟨⟨i3, a3⟩, h3, h⟩ := h
  obtain ⟨⟨i4, a4⟩, h4, h⟩ := h
  obtain ⟨⟨i5, a5⟩, h5, h⟩ := h
  obtain ⟨⟨i6, a6⟩, h6, h⟩ := h
  obtain ⟨⟨i7, a7⟩, h7, h⟩ := h
  obtain ⟨⟨i8, a8⟩, h8, h⟩ := h
  obtain ⟨⟨p1, p2⟩, hp, h⟩ := h
  obtain ⟨⟨q1, q2⟩, hq, h⟩ := h
  obtain ⟨⟨d1, d2⟩, hd, h⟩ := h
  simp only [Option.some.injEq, Prod.mk.injEq] at h
  rw [← h.1]
  rw [read_le_drop 4 vd i1 a1 h1] at *
  rw [read_le_drop 4 _ i2 a2 h2] at *
  rw [read_le_drop 8 _ i3 a3 h3] at *
  rw [read_le_drop 4 _ i4 a4 h4] at *
  rw [read_le_drop 4 _ i5 a5 h5] at *
  rw [read_le_drop 4 _ i6 a6 h6] at *
  rw [read_le_drop 4 _ i7 a7 h7] at *
  rw [read_le_drop 4 _ i8 a8 h8]
  simp [List.drop_drop]

/-- C9: for every decoded volume record, the decoder advances past a
version-dependent trailing unknown region to reach the next record: the
36-byte fixed header plus 60 trailer bytes when the version is 30, and
plus 68 trailer bytes when the version is 26 or 23 — so the remaining
records of a successful decode continue at `drop (36 + 60)` respectively
`drop (36 + 68)` of the current record's start. -/
theorem volume_trailer_version_dependent
    (vs vd rest : List Nat) (version n : Nat) (l : List Volume)
    (hv : version = 30 ∨ version = 26 ∨ version = 23)
    (h : parse_volume_loop vs version (n + 1) vd = some (rest, l)) :
    ∃ v l2, l = v :: l2 ∧
      parse_volume_loop vs version n
        (vd.drop (36 + (if version = 30 then 60 else 68))) = some (rest, l2) := by
  unfold parse_volume_loop at h
  cases hrec : parse_volume_record vs vd with
  | none => rw [hrec] at h; simp at h
  | some p =>
    obtain ⟨input, volume⟩ := p
    rw [hrec] at h
    dsimp only at h
    have hdrop := parse_volume_record_drop vs vd input volume hrec
    rcases hv with rfl | rfl | rfl
    · rw [if_pos rfl] at h
      rw [show (36 + if (30 : Nat) = 30 then 60 else 68) = 96 from by norm_num]
      cases ht : nom_take 60 input with
      | none => rw [ht] at h; simp at h
      | some q =>
        obtain ⟨input2, t⟩ := q
        rw [ht] at h
        dsimp only at h
        cases hl : parse_volume_loop vs 30 n input2 with
        | none => rw [hl] at h; simp at h
        | some w =>
          obtain ⟨rest2, vols⟩ := w
          rw [hl] at h
          simp only [Option.some.injEq, Prod.mk.injEq] at h
          refine ⟨volume, vols, (h.2).symm, ?_⟩
          have h2 : input2 = List.drop 60 input := nom_take_drop 60 input input2 t ht
          rw [← h.1, ← hl, h2, hdrop, List.drop_drop]
    · rw [if_neg (by norm_num), if_pos (by norm_num)] at h
      rw [show (36 + if (26 : Nat) = 30 then 60 else 68) = 104 from by norm_num]
      cases ht : nom_take 68 input with
      | none => rw [ht] at h; simp at h
      | some q =>
        obtain ⟨input2, t⟩ := q
        rw [ht] at h
        dsimp only at h
        cases hl : parse_volume_loop vs 26 n input2 with
        | none => rw [hl] at h; simp at h
        | some w =>
          obtain ⟨rest2, vols⟩ := w
          rw [hl] at h
          simp only [Option.some.injEq, Prod.mk.injEq] at h
          refine ⟨volume, vols, (h.2).symm, ?_⟩
          have h2 : input2 = List.drop 68 input := nom_take_drop 68 input input2 t ht
          rw [← h.1, ← hl, h2, hdrop, List.drop_drop]
    · rw [if_neg (by norm_num), if_pos (by norm_num)] at h
      rw [show (36 + if (23 : Nat) = 30 then 60 else 68) = 104 from by norm_num]
      cases ht : nom_take 68 input with
      | none => rw [ht] at h; simp at h
      | some q =>
        obtain ⟨input2, t⟩ := q
        rw [ht] at h
        dsimp only at h
        cases hl : parse_volume_loop vs 23 n input2 with
        | none => rw [hl] at h; simp at h
        | some w =>
          obtain ⟨rest2, vols⟩ := w
          rw [hl] at h
          simp only [Option.some.injEq, Prod.mk.injEq] at h
          refine ⟨volume, vols, (h.2).symm, ?_⟩
          have h2 : input2 = List.drop 68 input := nom_take_drop 68 input input2 t ht
          rw [← h.1, ← hl, h2, hdrop, List.drop_drop]

/-- Witness for `volume_trailer_version_dependent` at an all-zero 96-byte
buffer, version 30, one record: the continuation runs at `drop 96`. -/
theorem volume_trailer_version_dependent_witness :
    parse_volume_loop (List.replicate 96 0) 30 0
      (List.drop 96 (List.replicate 96 0)) = some ([], []) := by
  obtain ⟨v, l2, he, hl⟩ :=
    volume_trailer_version_dependent (List.replicate 96 0) (List.replicate 96 0)
      [] 30 0 [zeroVolume] (Or.inl rfl) (by decide)
  injection he with he1 he2
  rw [← he2] at hl
  exact hl

set_option maxRecDepth 6000 in
/-- C3: decoding the reference fixture buffer as a volume record set with
record count 1, version 30, at offset 0 succeeds and yields exactly one
record whose `volume_path` is "\VOLUME{01d6828290579d13-4290933e}", whose
`volume_creation` is 1599200033 Unix epoch seconds (converted from the
64-bit FILETIME in the header), whose `volume_serial` is 0x4290933e, and
whose `number_directory_strings` is 15. -/
theorem volume_fixture_decode :
    (Volume.parse_volume volumeFixture 0 1 30).map (fun p => p.2.map fun v =>
      (v.volume_path, v.volume_creation, v.volume_serial, v.number_directory_strings))
      = some [("\\VOLUME\x7b01d6828290579d13-4290933e\x7d",
          (1599200033 : Int), 0x4290933e, 15)] := by
  rfl

set_option maxRecDepth 6000 in
/-- C4: directory-table decoding (a u16 character count, that many UTF-16
code units, then one 2-byte null terminator per entry, as embedded in
`Volume.get_directories_loop`) returns, on the 15-entry reference
fixture, 15 strings with entries 0, 8 and 14 as claimed. -/
theorem directory_fixture_decode :
    (Volume.get_directories directoryFixture 0 15).map (fun p =>
      (p.2.length, p.2.getD 0 "", p.2.getD 8 "", p.2.getD 14 ""))
      = some (15, "\\VOLUME\x7b01d6828290579d13-4290933e\x7d\\$EXTEND",
          "\\VOLUME\x7b01d6828290579d13-4290933e\x7d\\USERS\\BOB\\APPDATA\\LOCAL\\TEMP",
          "\\VOLUME\x7b01d6828290579d13-4290933e\x7d\\WINDOWS\\SYSWOW64") := by
  rfl

/-- C1 counterexample: a 96-byte all-zero buffer holds exactly one full
version-30 record (shown by the success with record count 1), yet asking
for 2 records makes the whole decode return the `nom` error (`none`),
discarding the record already collected — not a partial success. -/
theorem parse_volume_truncation_is_hard_error :
    Volume.parse_volume (List.replicate 96 0) 0 2 30 = none ∧
    (Volume.parse_volume (List.replicate 96 0) 0 1 30).isSome = true := by
  decide

/-- C1 (amended): if a structural field read runs past the end of the
buffer while decoding the remaining records, `parse_volume` aborts the
whole record-set decode with a hard `nom` error that also discards the
records already collected (here: the first record decodes on its own, the
tail fails, and the whole decode is `none`); partial results survive only
the unsupported-version halt. -/
theorem parse_volume_loop_tail_error_discards_record
    (vs vd rest1 : List Nat) (version n : Nat) (v : Volume)
    (hv : version = 30 ∨ version = 26 ∨ version = 23)
    (h1 : parse_volume_loop vs version 1 vd = some (rest1, [v]))
    (h2 : parse_volume_loop vs version n rest1 = none) :
    parse_volume_loop vs version (n + 1) vd = none := by
  rw [show (1 : Nat) = 0 + 1 from rfl] at h1
  unfold parse_volume_loop at h1 ⊢
  cases hrec : parse_volume_record vs vd with
  | none => rfl
  | some p =>
    obtain ⟨input, volume⟩ := p
    rw [hrec] at h1
    dsimp only at h1 ⊢
    rcases hv with rfl | rfl | rfl
    · rw [if_pos rfl] at h1 ⊢
      cases ht : nom_take 60 input with
      | none => rfl
      | some q =>
        obtain ⟨input2, t⟩ := q
        rw [ht] at h1
        dsimp only at h1 ⊢
        simp only [parse_volume_loop, Option.some.injEq, Prod.mk.injEq,
          List.cons.injEq] at h1
        rw [← h1.1] at h2
        rw [h2]
    · rw [if_neg (by norm_num), if_pos (by norm_num)] at h1 ⊢
      cases ht : nom_take 68 input with
      | none => rfl
      | some q =>
        obtain ⟨input2, t⟩ := q
        rw [ht] at h1
        dsimp only at h1 ⊢
        simp only [parse_volume_loop, Option.some.injEq, Prod.mk.injEq,
          List.cons.injEq] at h1
        rw [← h1.1] at h2
        rw [h2]
    · rw [if_neg (by norm_num), if_pos (by norm_num)] at h1 ⊢
      cases ht : nom_take 68 input with
      | none => rfl
      | some q =>
        obtain ⟨input2, t⟩ := q
        rw [ht] at h1
        dsimp only at h1 ⊢
        simp only [parse_volume_loop, Option.some.injEq, Prod.mk.injEq,
          List.cons.injEq] at h1
        rw [← h1.1] at h2
        rw [h2]

/-- Witness for `parse_volume_loop_tail_error_discards_record`: on the
96-byte all-zero buffer the first record decodes, the second truncates,
and the two-record decode is a hard error. -/
theorem parse_volume_loop_tail_error_discards_record_witness :
    parse_volume_loop (List.replicate 96 0) 30 (1 + 1) (List.replicate 96 0) = none :=
  parse_volume_loop_tail_error_discards_record (List.replicate 96 0)
    (List.replicate 96 0) [] 30 1 zeroVolume (Or.inl rfl) (by decide) (by decide)

/-- C2 counterexample: with the unsupported version 31, `parse_volume` on
the empty buffer with one expected record returns the `nom` error, not a
successful partial result — the claimed success for every buffer fails
where a structural read of the first record runs past the buffer end. -/
theorem parse_volume_unsupported_version_can_fail :
    Volume.parse_volume [] 0 1 31 = none := by
  rfl

/-- C2 (amended): with any version outside {23, 26, 30} the decode halts
after the first record: the result with any count ≥ 1 equals the result
with count 1 (further records are never decoded), and any successful
result holds exactly one record — the one decoded before the version
check, kept intact.  (When a structural read of that first record runs
past the buffer end the decode is instead a hard error, per C1.) -/
theorem parse_volume_unsupported_version_halts
    (data : List Nat) (off c version : Nat)
    (h23 : version ≠ 23) (h26 : version ≠ 26) (h30 : version ≠ 30) (hc : 1 ≤ c) :
    Volume.parse_volume data off c version = Volume.parse_volume data off 1 version ∧
    ∀ rest vec, Volume.parse_volume data off c version = some (rest, vec) →
      vec.length = 1 := by
  obtain ⟨n, rfl⟩ : ∃ n, c = n + 1 := ⟨c - 1, by omega⟩
  have key : ∀ (vs : List Nat) (m : Nat) (w : List Nat),
      parse_volume_loop vs version (m + 1) w =
        match parse_volume_record vs w with
        | none => none
        | some (_, volume) => some (w, [volume]) := by
    intro vs m w
    unfold parse_volume_loop
    cases hrec : parse_volume_record vs w with
    | none => rfl
    | some p =>
      obtain ⟨input, volume⟩ := p
      dsimp only
      rw [if_neg h30, if_neg (fun hor => hor.elim h26 h23)]
  unfold Volume.parse_volume
  cases hk : nom_take off data with
  | none => exact ⟨rfl, fun rest vec hx => nomatch hx⟩
  | some p =>
    obtain ⟨vd, t⟩ := p
    dsimp only
    have k1 := key vd 0 vd
    norm_num at k1
    constructor
    · rw [key vd n vd, k1]
    · intro rest vec hx
      rw [key vd n vd] at hx
      cases hrec : parse_volume_record vd vd with
      | none => rw [hrec] at hx; simp at hx
      | some q =>
        obtain ⟨i, volume⟩ := q
        rw [hrec] at hx
        dsimp only at hx
        simp only [Option.some.injEq, Prod.mk.injEq] at hx
        rw [← hx.2]
        rfl

/-- Witness for `parse_volume_unsupported_version_halts`: on the 96-byte
all-zero buffer with version 31, asking for two records gives the same
result as asking for one. -/
theorem parse_volume_unsupported_version_halts_witness :
    Volume.parse_volume (List.replicate 96 0) 0 2 31 =
      Volume.parse_volume (List.replicate 96 0) 0 1 31 :=
  (parse_volume_unsupported_version_halts (List.replicate 96 0) 0 2 31
    (by decide) (by decide) (by decide) (by decide)).1

theorem ese_join_files_length (users : List (String × String)) (job : JobInfo) :
    ∀ files : List FileInfo,
      (ese_join_files users job files).length =
        (files.filter fun f => decide (job.file_id = f.file_id)).length := by
  intro files
  induction files with
  | nil => rfl
  | cons f fs ih =>
    unfold ese_join_files
    by_cases hf : job.file_id = f.file_id
    · simp [hf, List.filter_cons, ih]
    · simp [hf, List.filter_cons, ih]

theorem ese_join_files_mem (users : List (String × String)) (job : JobInfo)
    (b : BitsInfo) :
    ∀ files : List FileInfo, b ∈ ese_join_files users job files →
      ∃ f ∈ files, job.file_id = f.file_id ∧ b = make_bits_info users job f := by
  intro files
  induction files with
  | nil => intro h; simp [ese_join_files] at h
  | cons f fs ih =>
    intro h
    unfold ese_join_files at h
    by_cases hf : job.file_id = f.file_id
    · rw [if_pos hf] at h
      rcases List.mem_cons.mp h with h1 | h2
      · exact ⟨f, List.mem_cons_self f fs, hf, h1⟩
      · obtain ⟨g, hg, hfid, hb⟩ := ih h2
        exact ⟨g, List.mem_cons_of_mem f hg, hfid, hb⟩
    · rw [if_neg hf] at h
      obtain ⟨g, hg, hfid, hb⟩ := ih h
      exact ⟨g, List.mem_cons_of_mem f hg, hfid, hb⟩

theorem ese_join_files_pair_mem (users : List (String × String)) (job : JobInfo)
    (f : FileInfo) :
    ∀ files : List FileInfo, f ∈ files → job.file_id = f.file_id →
      make_bits_info users job f ∈ ese_join_files users job files := by
  intro files
  induction files with
  | nil => intro h; simp at h
  | cons g gs ih =>
    intro hmem hfid
    unfold ese_join_files
    rcases List.mem_cons.mp hmem with rfl | h2
    · rw [if_pos hfid]
      exact List.mem_cons_self _ _
    · by_cases hg : job.file_id = g.file_id
      · rw [if_pos hg]
        exact List.mem_cons_of_mem _ (ih h2 hfid)
      · rw [if_neg hg]
        exact ih h2 hfid

theorem ese_join_length (users : List (String × String)) (files : List FileInfo) :
    ∀ jobs : List JobInfo,
      (ese_join users jobs files).length =
        (jobs.map fun j =>
          (files.filter fun f => decide (j.file_id = f.file_id)).length).sum := by
  intro jobs
  induction jobs with
  | nil => rfl
  | cons j js ih =>
    unfold ese_join
    simp [List.length_append, ese_join_files_length, ih]

theorem ese_join_mem (users : List (String × String)) (files : List FileInfo)
    (b : BitsInfo) :
    ∀ jobs : List JobInfo, b ∈ ese_join users jobs files →
      ∃ j ∈ jobs, ∃ f ∈ files, j.file_id = f.file_id ∧ b = make_bits_info users j f := by
  intro jobs
  induction jobs with
  | nil => intro h; simp [ese_join] at h
  | cons j js ih =>
    intro h
    unfold ese_join at h
    rcases List.mem_append.mp h with h1 | h2
    · obtain ⟨f, hf, hfid, hb⟩ := ese_join_files_mem users j b files h1
      exact ⟨j, List.mem_cons_self j js, f, hf, hfid, hb⟩
    · obtain ⟨j', hj, f, hf, hfid, hb⟩ := ih h2
      exact ⟨j', List.mem_cons_of_mem j hj, f, hf, hfid, hb⟩

theorem ese_join_pair_mem (users : List (String × String)) (files : List FileInfo)
    (j : JobInfo) (f : FileInfo) :
    ∀ jobs : List JobInfo, j ∈ jobs → f ∈ files → j.file_id = f.file_id →
      make_bits_info users j f ∈ ese_join users jobs files := by
  intro jobs
  induction jobs with
  | nil => intro h; simp at h
  | cons j0 js ih =>
    intro hj hf hfid
    unfold ese_join
    rcases List.mem_cons.mp hj with rfl | h2
    · exact List.mem_append.mpr (Or.inl (ese_join_files_pair_mem users j f files hf hfid))
    · exact List.mem_append.mpr (Or.inr (ih h2 hf hfid))

/-- C5: the nested-loop join of `parse_ese_bits` produces exactly one
merged record for each (job, file) pair sharing a `file_id` — the output
length equals the number of matching pairs, every output element arises
from a matching pair, and every matching pair contributes its merged
record — and produces no record for any job or file without a
counterpart (unmatched records appear in no output element). -/
theorem ese_join_exactly_matching_pairs
    (users : List (String × String)) (jobs : List JobInfo) (files : List FileInfo) :
    (ese_join users jobs files).length =
      (jobs.map fun j =>
        (files.filter fun f => decide (j.file_id = f.file_id)).length).sum ∧
    (∀ b ∈ ese_join users jobs files,
      ∃ j ∈ jobs, ∃ f ∈ files, j.file_id = f.file_id ∧ b = make_bits_info users j f) ∧
    ∀ j ∈ jobs, ∀ f ∈ files, j.file_id = f.file_id →
      make_bits_info users j f ∈ ese_join users jobs files :=
  ⟨ese_join_length users files jobs,
   fun b hb => ese_join_mem users files b jobs hb,
   fun j hj f hf hfid => ese_join_pair_mem users files j f jobs hj hf hfid⟩

/-- Witness for `ese_join_exactly_matching_pairs`: one job, one matching
and one unmatched file give exactly one merged record. -/
theorem ese_join_exactly_matching_pairs_witness :
    (ese_join [] [sampleJob] [sampleFileA, sampleFileB]).length =
      (([sampleJob] : List JobInfo).map fun j =>
        (([sampleFileA, sampleFileB] : List FileInfo).filter fun f =>
          decide (j.file_id = f.file_id)).length).sum :=
  (ese_join_exactly_matching_pairs [] [sampleJob] [sampleFileA, sampleFileB]).1

/-- C6: if either required table ("Jobs", "Files") is absent from the
mapping produced by the external table engine, `parse_ese_bits` fails
with the corresponding missing-table error; being an `Except.error`, the
result carries no partial set of merged records. -/
theorem parse_ese_bits_missing_table_error {ρ : Type}
    (bits_tables : List (String × List ρ))
    (get_jobs : List ρ → Except BitsError (List JobInfo))
    (get_files : List ρ → Except BitsError (List FileInfo))
    (users : List (String × String))
    (raw_read : Except Unit (List Nat))
    (cb : List Nat → Bool → Option (List Nat × WinBits))
    (carve : Bool) :
    (bits_tables.lookup "Jobs" = none →
      parse_ese_bits (.ok bits_tables) get_jobs get_files users raw_read cb carve =
        .error .MissingJobs) ∧
    (∀ jobs_rows jobs_info, bits_tables.lookup "Jobs" = some jobs_rows →
      get_jobs jobs_rows = .ok jobs_info →
      bits_tables.lookup "Files" = none →
      parse_ese_bits (.ok bits_tables) get_jobs get_files users raw_read cb carve =
        .error .MissingFiles) := by
  constructor
  · intro h
    unfold parse_ese_bits
    dsimp only
    rw [h]
  · intro jobs_rows jobs_info hjr hji hf
    unfold parse_ese_bits
    dsimp only
    rw [hjr]
    dsimp only
    rw [hji]
    dsimp only
    rw [hf]

/-- Witness for `parse_ese_bits_missing_table_error`: a mapping holding
only the "Files" table fails with `MissingJobs`. -/
theorem parse_ese_bits_missing_table_error_witness :
    parse_ese_bits (.ok [("Files", ([] : List Nat))])
      (fun _ => .ok []) (fun _ => .ok []) [] (.ok []) (fun _ _ => none) false =
      .error .MissingJobs :=
  (parse_ese_bits_missing_table_error [("Files", ([] : List Nat))]
    (fun _ => .ok []) (fun _ => .ok []) [] (.ok []) (fun _ _ => none) false).1 (by decide)

/-- C7: the carving scanner wrapper never produces a fatal error — its
result type is a plain `WinBits` — and on any internal parse failure of
the carving core it returns empty recovered lists. -/
theorem parse_carve_failure_returns_empty
    (cb : List Nat → Bool → Option (List Nat × WinBits))
    (data : List Nat) (is_legacy : Bool)
    (h : cb data is_legacy = none) :
    parse_carve cb data is_legacy = (([], [], []) : WinBits) := by
  unfold parse_carve
  rw [h]

/-- Witness for `parse_carve_failure_returns_empty`: a carving core that
fails on every buffer yields the empty recovery triple. -/
theorem parse_carve_failure_returns_empty_witness :
    parse_carve (fun _ _ => none) [] false = (([], [], []) : WinBits) :=
  parse_carve_failure_returns_empty (fun _ _ => none) [] false rfl

/-- C8 counterexample: with both fixed locations present but the raw read
of `qmgr0.dat` failing (while `qmgr1.dat` would read fine), the whole
legacy run returns the `ReadFile` error — it does not skip the unreadable
source, does not continue to the other one, and returns no success. -/
theorem parse_legacy_bits_read_error_cex :
    parse_legacy_bits (fun _ => true)
      (fun p => if p = qmgr0_path 'C' then .error () else .ok [])
      (fun _ => .ok []) (fun _ _ => none) 'C' false = .error .ReadFile := by
  rfl

/-- C8 (amended): a fixed location that is absent (`is_file` false) is
skipped and the run continues — with both absent the run succeeds with an
empty result — but a raw-read failure on a present first location makes
`legacy_bits` return `ReadFile`, which `parse_legacy_bits` propagates,
aborting the whole multi-source run before the second location. -/
theorem parse_legacy_bits_failure_semantics
    (is_file : String → Bool)
    (raw_read : String → Except Unit (List Nat))
    (get_legacy_jobs : List Nat → Except BitsError (List BitsInfo))
    (cb : List Nat → Bool → Option (List Nat × WinBits))
    (systemdrive : Char) (carve : Bool) :
    (is_file (qmgr0_path systemdrive) = false →
      is_file (qmgr1_path systemdrive) = false →
      parse_legacy_bits is_file raw_read get_legacy_jobs cb systemdrive carve =
        .ok ⟨[], [], []⟩) ∧
    (is_file (qmgr0_path systemdrive) = true →
      raw_read (qmgr0_path systemdrive) = .error () →
      parse_legacy_bits is_file raw_read get_legacy_jobs cb systemdrive carve =
        .error .ReadFile) := by
  constructor
  · intro h0 h1
    unfold parse_legacy_bits
    rw [h0, h1]
    rfl
  · intro h0 h1
    unfold parse_legacy_bits legacy_bits
    rw [h0, h1]
    rfl

/-- Witness for `parse_legacy_bits_failure_semantics`: concrete
collaborators where `qmgr0.dat` exists but cannot be raw-read. -/
theorem parse_legacy_bits_failure_semantics_witness :
    parse_legacy_bits (fun _ => true) (fun _ => .error ())
      (fun _ => .ok []) (fun _ _ => none) 'C' true = .error .ReadFile :=
  (parse_legacy_bits_failure_semantics (fun _ => true) (fun _ => .error ())
    (fun _ => .ok []) (fun _ _ => none) 'C' true).2 rfl rfl

/-- C10: the legacy decoding path always invokes the carving core with
the generation flag `is_legacy = false` (the structured/ESE signature):
the result of `legacy_bits` depends on the carving core only through its
behaviour at `is_legacy = false`, so two cores agreeing there — however
much they differ at `is_legacy = true` — give identical results. -/
theorem legacy_bits_carve_uses_ese_signature
    (raw_read : String → Except Unit (List Nat))
    (get_legacy_jobs : List Nat → Except BitsError (List BitsInfo))
    (cb1 cb2 : List Nat → Bool → Option (List Nat × WinBits))
    (path : String) (carve : Bool)
    (h : ∀ d, cb1 d false = cb2 d false) :
    legacy_bits raw_read get_legacy_jobs cb1 path carve =
      legacy_bits raw_read get_legacy_jobs cb2 path carve := by
  unfold legacy_bits
  cases hr : raw_read path with
  | error e => rfl
  | ok bits_data =>
    dsimp only
    cases hj : get_legacy_jobs bits_data with
    | error e => rfl
    | ok bits =>
      cases carve with
      | false => rfl
      | true =>
        dsimp only
        unfold parse_carve
        rw [h bits_data]

/-- Witness for `legacy_bits_carve_uses_ese_signature`: a core that fails
everywhere and a core that succeeds only for the legacy signature agree
at `is_legacy = false`, and the legacy decode cannot tell them apart. -/
theorem legacy_bits_carve_uses_ese_signature_witness :
    legacy_bits (fun _ => .ok []) (fun _ => .ok [])
      (fun _ _ => none) "qmgr0.dat" true =
    legacy_bits (fun _ => .ok [])
      (fun _ => .ok [])
      (fun _ b => if b then some ([], ([], [], [])) else none) "qmgr0.dat" true :=
  legacy_bits_carve_uses_ese_signature (fun _ => .ok []) (fun _ => .ok [])
    (fun _ _ => none) (fun _ b => if b then some ([], ([], [], [])) else none)
    "qmgr0.dat" true (fun _ => rfl)
